import Mathlib

/-!
Verification development for the nova z/VM virtualization driver
(`nova_zvm/virt/zvm/driver.py`, `nova_zvm/virt/zvm/utils.py`, and the
legacy `nova/virt/zvm/driver.py` tree).

The driver is orchestration glue around a remote SDK gateway.  We embed
the pieces with non-trivial control flow:

* the power-state translation (`mapping_power_stat`) and the
  instance-status refresh (`get_info` / `_get_instance_info`);
* the host-status translation (`update_host_status` /
  `get_available_resource`);
* the NIC-readiness polling tick (`_wait_for_nics_add_in_vm`);
* the `spawn` orchestration with its compensating-destroy rollback, and
  the guarded lifecycle operations `destroy` / `power_off` / `power_on`.

Remote calls are modelled by explicit result values; the gateway error
`ZVMSDKRequestFailed` (raised by `zVMSDKRequestHandler.call` in
`utils.py`) is modelled as a value carrying its `overallRC` code.
-/

set_option autoImplicit false

namespace ZvmDriver

/-! ## Power states

`nova.compute.power_state` constants used by the driver. -/

inductive PowerState where
  | NOSTATE
  | RUNNING
  | PAUSED
  | SHUTDOWN
  deriving DecidableEq, Repr

open PowerState

/-- Modelled from the spec: the fixed lookup table `const.ZVM_POWER_STAT`
lives in the `const` module, which is not part of the provided sources;
the spec fixes its contents as exactly `"on" → RUNNING` and
`"off" → SHUTDOWN`. -/
def ZVM_POWER_STAT : List (String × PowerState) :=
  [("on", RUNNING), ("off", SHUTDOWN)]

/-- `mapping_power_stat` from `nova_zvm/virt/zvm/utils.py`:
`const.ZVM_POWER_STAT.get(power_stat, power_state.NOSTATE)`. -/
def mapping_power_stat (power_stat : String) : PowerState :=
  match ZVM_POWER_STAT.lookup power_stat with
  | some st => st
  | none => NOSTATE

/-! ## Instance status refresh

Two drivers coexist in the repository.  The legacy
`nova/virt/zvm/driver.py` computes the reported state in
`_get_instance_info` with a sticky-pause override; the newer
`nova_zvm/virt/zvm/driver.py` computes it in `get_info` directly from
the freshly queried token, ignoring the instance's previous state. -/

/-- The fields of the instance object that the status refresh reads. -/
structure Instance where
  name : String
  power_state : PowerState
  deriving DecidableEq, Repr

/-- State reported by `_get_instance_info` in the legacy
`nova/virt/zvm/driver.py` (lines 98–116): translate the raw token and
keep PAUSED when the previous state was PAUSED and the fresh translation
is RUNNING. -/
def get_instance_info_state (inst : Instance) (rawToken : String) : PowerState :=
  let power_stat := mapping_power_stat rawToken
  if power_stat = RUNNING ∧ inst.power_state = PAUSED then PAUSED
  else power_stat

/-- State reported by `get_info` in `nova_zvm/virt/zvm/driver.py`
(lines 94–112): the freshly translated raw state, with no override
(the instance's previous `power_state` is never consulted). -/
def zvm_get_info_state (_inst : Instance) (rawToken : String) : PowerState :=
  mapping_power_stat rawToken

/-! ## Host status translation

`update_host_status` copies the `host_get_info` payload into a
per-host data mapping; `get_available_resource` turns that mapping into
the resource dictionary.  Numeric fields are integers (`Int`, so that a
negative used-memory value is representable, as the spec demands). -/

/-- Payload of the gateway's `host_get_info` call (numeric fields). -/
structure HostInfo where
  vcpus : Int
  vcpus_used : Int
  memory_mb : Int
  memory_mb_used : Int
  disk_total : Int
  disk_used : Int
  disk_available : Int
  deriving DecidableEq, Repr

/-- One entry of the list built by `update_host_status`
(`nova_zvm/virt/zvm/driver.py` lines 369–401), numeric fields only. -/
structure HostData where
  vcpus : Int
  vcpus_used : Int
  host_memory_total : Int
  host_memory_free : Int
  disk_total : Int
  disk_used : Int
  disk_available : Int
  deriving DecidableEq, Repr

/-- `update_host_status`: copy the payload fields;
`host_memory_free` is `memory_mb - memory_mb_used`. -/
def update_host_status (info : HostInfo) : HostData :=
  { vcpus := info.vcpus
    vcpus_used := info.vcpus_used
    host_memory_total := info.memory_mb
    host_memory_free := info.memory_mb - info.memory_mb_used
    disk_total := info.disk_total
    disk_used := info.disk_used
    disk_available := info.disk_available }

/-- Resource dictionary built by `get_available_resource`
(`nova_zvm/virt/zvm/driver.py` lines 328–361), numeric fields only. -/
structure ResourceDict where
  vcpus : Int
  memory_mb : Int
  local_gb : Int
  vcpus_used : Int
  memory_mb_used : Int
  local_gb_used : Int
  disk_available_least : Int
  deriving DecidableEq, Repr

/-- `get_available_resource`: `mem_used` is
`stats['host_memory_total'] - stats['host_memory_free']`. -/
def get_available_resource (info : HostInfo) : ResourceDict :=
  let stats := update_host_status info
  let mem_used := stats.host_memory_total - stats.host_memory_free
  { vcpus := stats.vcpus
    memory_mb := stats.host_memory_total
    local_gb := stats.disk_total
    vcpus_used := stats.vcpus_used
    memory_mb_used := mem_used
    local_gb_used := stats.disk_used
    disk_available_least := stats.disk_available }

/-! ## NIC-readiness wait loop

`_wait_network_ready` drives the per-tick callback
`_wait_for_nics_add_in_vm` through a fixed-interval looping call.  The
callback either raises the timeout error (`ZVMNetworkError`), returns
normally (the loop polls again), or raises `LoopingCallDone` (success).
Gateway calls made by a tick are recorded in a call trace. -/

/-- The error raised by `zVMSDKRequestHandler.call` when the SDK reply
carries a non-zero `overallRC` (`utils.py` lines 79–89). -/
structure ZVMSDKRequestFailed where
  overallRC : Nat
  deriving DecidableEq, Repr

/-- Modelled from the spec: the exception module defining the
`ZVMBaseException` hierarchy is not part of the provided sources; the
spec states that gateway failures raised during NIC polling are
recognized driver-level errors, i.e. `ZVMSDKRequestFailed` is a
`ZVMBaseException` and is matched by the tick's except clause. -/
def ZVMSDKRequestFailed.isZVMBaseException (_ : ZVMSDKRequestFailed) : Bool :=
  true

/-- Gateway calls a readiness tick can issue. -/
inductive NicCall where
  | guest_get_nic_vswitch_info
  | guest_get_definition_info (key : String)
  deriving DecidableEq, Repr

/-- How one invocation of `_wait_for_nics_add_in_vm` ends. -/
inductive TickOutcome where
  /-- `ZVMNetworkError` raised: the deadline passed. -/
  | timeoutError
  /-- Plain `return`: the loop stays in the polling state. -/
  | continuePolling
  /-- `LoopingCallDone` raised: the wait terminates successfully. -/
  | done
  /-- An error not matched by the `except ZVMBaseException` clause. -/
  | uncaught (e : ZVMSDKRequestFailed)
  deriving DecidableEq, Repr

/-- Inputs a single poll tick reads: the configured
`CONF.zvm_reachable_timeout`, the current clock, the deadline computed
at loop start, and the gateway's replies for this tick. -/
structure TickEnv where
  zvm_reachable_timeout : Nat
  now : Nat
  expiration : Nat
  vswitch : Except ZVMSDKRequestFailed (List (String × String))
  defInfo : String → Except ZVMSDKRequestFailed Bool

/-- The `for key in switch_dict` loop of `_wait_for_nics_add_in_vm`:
query `guest_get_definition_info` per key and `return` (continue
polling) on the first NIC that is not yet coupled; completing the loop
reaches the `LoopingCallDone` raise. -/
def checkKeys (env : TickEnv) : List String → TickOutcome × List NicCall
  | [] => (.done, [])
  | k :: ks =>
    match env.defInfo k with
    | .error e =>
      if e.isZVMBaseException then
        (.continuePolling, [.guest_get_definition_info k])
      else
        (.uncaught e, [.guest_get_definition_info k])
    | .ok coupled =>
      if coupled then
        ((checkKeys env ks).1,
          .guest_get_definition_info k :: (checkKeys env ks).2)
      else
        (.continuePolling, [.guest_get_definition_info k])

/-- One tick of `_wait_for_nics_add_in_vm`
(`nova_zvm/virt/zvm/driver.py` lines 239–269): deadline check first
(`CONF.zvm_reachable_timeout and utcnow() > expiration`), then the
vswitch-info query, the unresolved-placeholder check
(`switch_dict and '' not in switch_dict.values()`), and the per-key
secondary queries; any `ZVMBaseException` from the queries is swallowed
and the tick returns normally. -/
def wait_for_nics_add_in_vm (env : TickEnv) : TickOutcome × List NicCall :=
  if env.zvm_reachable_timeout ≠ 0 ∧ env.now > env.expiration then
    (.timeoutError, [])
  else
    match env.vswitch with
    | .error e =>
      if e.isZVMBaseException then
        (.continuePolling, [.guest_get_nic_vswitch_info])
      else
        (.uncaught e, [.guest_get_nic_vswitch_info])
    | .ok switch_dict =>
      if switch_dict ≠ [] ∧ ¬ (switch_dict.map Prod.snd).contains "" then
        ((checkKeys env (switch_dict.map Prod.fst)).1,
          .guest_get_nic_vswitch_info ::
            (checkKeys env (switch_dict.map Prod.fst)).2)
      else
        (.continuePolling, [.guest_get_nic_vswitch_info])

/-- The convergence condition of a tick, as the spec states it: the
vswitch query succeeds with a non-empty mapping, no value is the empty
(unresolved) placeholder, and every mapped NIC's secondary query
reports `nic_coupled` true. -/
def convergedNow (env : TickEnv) : Prop :=
  ∃ sd, env.vswitch = .ok sd ∧ sd ≠ [] ∧
    ¬ (sd.map Prod.snd).contains "" ∧
    ∀ k ∈ sd.map Prod.fst, env.defInfo k = .ok true

/-- A tick environment past its deadline whose poll would have
converged: one resolved NIC, all queries successful. -/
def timedOutEnv : TickEnv :=
  { zvm_reachable_timeout := 300
    now := 301
    expiration := 300
    vswitch := .ok [("1000", "XCATVSW2")]
    defInfo := fun _ => .ok true }

/-- A pre-deadline tick with one resolved, coupled NIC. -/
def readyEnv : TickEnv :=
  { zvm_reachable_timeout := 300
    now := 50
    expiration := 300
    vswitch := .ok [("1000", "XCATVSW2")]
    defInfo := fun _ => .ok true }

/-- A pre-deadline tick whose NIC is mapped but not yet coupled. -/
def pendingEnv : TickEnv :=
  { readyEnv with defInfo := fun _ => .ok false }

/-- A pre-deadline tick whose vswitch-info query fails with a gateway
error. -/
def errEnv : TickEnv :=
  { readyEnv with vswitch := .error ⟨8⟩ }

/-- A pre-deadline tick whose definition-info query fails with a
gateway error. -/
def errKeyEnv : TickEnv :=
  { readyEnv with defInfo := fun _ => .error ⟨8⟩ }

/-! ## Spawn orchestration and guarded lifecycle operations

`spawn` (`nova_zvm/virt/zvm/driver.py` lines 128–217) validates the
instance-name length, generates the config drive, resolves the image
(importing it on a 404 from the first `image_query`), creates the
guest, deploys, configures networking and ephemeral disks, runs the
readiness wait and powers on.  Any exception inside the `try` block is
handled by `save_and_reraise_exception`: the compensating `destroy`
runs, and the original error is re-raised — unless the cleanup itself
raises, in which case oslo's context manager drops the original and
the cleanup error propagates.

Each remote call's success or failure on this particular run is an
input (the gateway is external), collected in `SpawnEnv`; the calls a
run issues are recorded in order in a trace. -/

/-- Remote gateway calls issued by the lifecycle operations.
`nic_poll` stands for the queries of one readiness-wait loop. -/
inductive GwOp where
  | image_query
  | image_import
  | image_get_root_disk_size
  | guest_create
  | guest_deploy
  | guest_create_network_interface
  | guest_config_minidisks
  | nic_poll
  | guest_start
  | guest_stop
  | guest_list
  | guest_delete
  deriving DecidableEq, Repr

/-- Errors a lifecycle operation can propagate, named by the step that
raised them (each wraps the step's `ZVMSDKRequestFailed`, the local
config-drive error, nova's `InvalidInput`, or `ZVMNetworkError`). -/
inductive SpawnErr where
  | invalidInput
  | configDriveErr
  | imageQueryErr
  | imageImportErr
  | imageQuery2Err
  | rootDiskSizeErr
  | guestCreateErr
  | guestDeployErr
  | setupNetworkErr
  | minidisksErr
  | networkTimeoutErr
  | guestStartErr
  | guestStopErr
  | guestListErr
  | guestDeleteErr
  deriving DecidableEq, Repr

/-- Per-run outcomes of each fallible step of `spawn`, plus the
instance's relevant inputs (`root_gb == 0`, whether `network_info`
and the ephemeral list are non-empty, image presence on the gateway). -/
structure SpawnEnv where
  configdriveOk : Bool
  imagePresent : Bool
  imageQueryFail : Bool
  imageImportOk : Bool
  imageQuery2Ok : Bool
  rootGbZero : Bool
  rootDiskSizeOk : Bool
  guestCreateOk : Bool
  guestDeployOk : Bool
  hasNets : Bool
  setupNetworkOk : Bool
  hasEphemerals : Bool
  minidisksOk : Bool
  waitNetworkOk : Bool
  guestStartOk : Bool
  cleanupListOk : Bool
  cleanupDeleteOk : Bool
  deriving DecidableEq, Repr

/-- The calls issued before `guest_create` on a run that reaches it:
the first `image_query`, the conditional `image_import` (absent image),
the second `image_query`, and the conditional
`image_get_root_disk_size` (when `root_gb` is 0). -/
def preCreateTrace (env : SpawnEnv) : List GwOp :=
  (if env.imagePresent then [GwOp.image_query]
   else [GwOp.image_query, GwOp.image_import])
    ++ [GwOp.image_query]
    ++ (if env.rootGbZero then [GwOp.image_get_root_disk_size] else [])

/-- The steps of `spawn` from `guest_create` on: create, deploy,
network setup (only when there are NICs), ephemeral-disk config (only
when there are ephemerals), the readiness wait, and `guest_start`.
Returns the call trace, whether the guest was created, and the error
that ended the run, if any. -/
def spawnAfterCreate (env : SpawnEnv) : List GwOp × Bool × Option SpawnErr :=
  if ¬ env.guestCreateOk then
    ([GwOp.guest_create], false, some .guestCreateErr)
  else if ¬ env.guestDeployOk then
    ([GwOp.guest_create, GwOp.guest_deploy], true, some .guestDeployErr)
  else if env.hasNets ∧ ¬ env.setupNetworkOk then
    ([GwOp.guest_create, GwOp.guest_deploy,
      GwOp.guest_create_network_interface], true, some .setupNetworkErr)
  else if env.hasEphemerals ∧ ¬ env.minidisksOk then
    ([GwOp.guest_create, GwOp.guest_deploy]
       ++ (if env.hasNets then [GwOp.guest_create_network_interface] else [])
       ++ [GwOp.guest_config_minidisks], true, some .minidisksErr)
  else if ¬ env.waitNetworkOk then
    ([GwOp.guest_create, GwOp.guest_deploy]
       ++ (if env.hasNets then [GwOp.guest_create_network_interface] else [])
       ++ (if env.hasEphemerals then [GwOp.guest_config_minidisks] else [])
       ++ [GwOp.nic_poll], true, some .networkTimeoutErr)
  else if ¬ env.guestStartOk then
    ([GwOp.guest_create, GwOp.guest_deploy]
       ++ (if env.hasNets then [GwOp.guest_create_network_interface] else [])
       ++ (if env.hasEphemerals then [GwOp.guest_config_minidisks] else [])
       ++ [GwOp.nic_poll, GwOp.guest_start], true, some .guestStartErr)
  else
    ([GwOp.guest_create, GwOp.guest_deploy]
       ++ (if env.hasNets then [GwOp.guest_create_network_interface] else [])
       ++ (if env.hasEphemerals then [GwOp.guest_config_minidisks] else [])
       ++ [GwOp.nic_poll, GwOp.guest_start], true, none)

/-- The forward phase of `spawn` inside the `try` block, in source
order: config drive, first `image_query` (a 404 means the image is
absent and is imported under the image-operation semaphore; any other
failure re-raises), second `image_query`, root-disk-size resolution,
then the steps from `guest_create` on. -/
def spawnForward (env : SpawnEnv) : List GwOp × Bool × Option SpawnErr :=
  if ¬ env.configdriveOk then ([], false, some .configDriveErr)
  else if env.imageQueryFail then
    ([GwOp.image_query], false, some .imageQueryErr)
  else if ¬ env.imagePresent ∧ ¬ env.imageImportOk then
    ([GwOp.image_query, GwOp.image_import], false, some .imageImportErr)
  else if ¬ env.imageQuery2Ok then
    ((if env.imagePresent then [GwOp.image_query]
      else [GwOp.image_query, GwOp.image_import]) ++ [GwOp.image_query],
      false, some .imageQuery2Err)
  else if env.rootGbZero ∧ ¬ env.rootDiskSizeOk then
    (preCreateTrace env, false, some .rootDiskSizeErr)
  else
    ((preCreateTrace env) ++ (spawnAfterCreate env).1,
      (spawnAfterCreate env).2.1, (spawnAfterCreate env).2.2)

/-- `destroy` (lines 283–293): `_instance_exists` issues `guest_list`;
`guest_delete` is issued only when the name is present.  `listOk` and
`deleteOk` say whether those two gateway calls succeed on this run. -/
def destroyRun (guests : List String) (name : String)
    (listOk deleteOk : Bool) : List GwOp × Option SpawnErr :=
  if ¬ listOk then ([GwOp.guest_list], some .guestListErr)
  else if name ∈ guests then
    if deleteOk then ([GwOp.guest_list, GwOp.guest_delete], none)
    else ([GwOp.guest_list, GwOp.guest_delete], some .guestDeleteErr)
  else ([GwOp.guest_list], none)

/-- `power_off` (lines 305–314): `guest_list`, then `guest_stop` only
when the name is present. -/
def power_off_run (guests : List String) (name : String)
    (listOk stopOk : Bool) : List GwOp × Option SpawnErr :=
  if ¬ listOk then ([GwOp.guest_list], some .guestListErr)
  else if name ∈ guests then
    if stopOk then ([GwOp.guest_list, GwOp.guest_stop], none)
    else ([GwOp.guest_list, GwOp.guest_stop], some .guestStopErr)
  else ([GwOp.guest_list], none)

/-- `power_on` (lines 316–326): `guest_list`, then `guest_start` only
when the name is present. -/
def power_on_run (guests : List String) (name : String)
    (listOk startOk : Bool) : List GwOp × Option SpawnErr :=
  if ¬ listOk then ([GwOp.guest_list], some .guestListErr)
  else if name ∈ guests then
    if startOk then ([GwOp.guest_list, GwOp.guest_start], none)
    else ([GwOp.guest_list, GwOp.guest_start], some .guestStartErr)
  else ([GwOp.guest_list], none)

/-- The gateway's guest list as the compensating destroy sees it: the
name is listed exactly when `guest_create` succeeded on this run. -/
def guestsAfterForward (name : String) (env : SpawnEnv) : List String :=
  if (spawnForward env).2.1 then [name] else []

/-- The compensating `destroy` issued by spawn's exception handler. -/
def spawnCleanup (name : String) (env : SpawnEnv) :
    List GwOp × Option SpawnErr :=
  destroyRun (guestsAfterForward name env) name
    env.cleanupListOk env.cleanupDeleteOk

/-- `spawn`: the name-length guard runs before the `try` block (no
call, no rollback); inside the block, any error triggers the
compensating `destroy` — the gateway's guest list contains the name
exactly when `guest_create` succeeded on this run — and
`save_and_reraise_exception` re-raises the original error when the
cleanup returns, or lets the cleanup's own error propagate when the
cleanup raises. -/
def spawn (name : String) (env : SpawnEnv) :
    List GwOp × Except SpawnErr Unit :=
  if name.length > 8 then ([], .error .invalidInput)
  else
    match (spawnForward env).2.2 with
    | none => ((spawnForward env).1, .ok ())
    | some e =>
      ((spawnForward env).1 ++ (spawnCleanup name env).1,
        match (spawnCleanup name env).2 with
        | none => .error e
        | some ce => .error ce)

/-- A run where `guest_deploy` fails after a successful `guest_create`
and the compensating destroy's `guest_list` call also fails. -/
def rollbackMaskedEnv : SpawnEnv :=
  { configdriveOk := true
    imagePresent := true
    imageQueryFail := false
    imageImportOk := true
    imageQuery2Ok := true
    rootGbZero := false
    rootDiskSizeOk := true
    guestCreateOk := true
    guestDeployOk := false
    hasNets := true
    setupNetworkOk := true
    hasEphemerals := false
    minidisksOk := true
    waitNetworkOk := true
    guestStartOk := true
    cleanupListOk := false
    cleanupDeleteOk := true }

/-- The same failing deploy, with a healthy cleanup path. -/
def rollbackCleanEnv : SpawnEnv :=
  { rollbackMaskedEnv with cleanupListOk := true }

/-- A fully successful run that must import the image first. -/
def importNeededEnv : SpawnEnv :=
  { rollbackCleanEnv with imagePresent := false, guestDeployOk := true }

/-- A fully successful run whose image is already present. -/
def importSkippedEnv : SpawnEnv :=
  { importNeededEnv with imagePresent := true }

end ZvmDriver

namespace ZvmDriver

open PowerState

/-! ## Claims about the status translator -/

/-- C5: the power-state translation is total (it is a Lean function, so
it never fails), maps "on" to RUNNING, "off" to SHUTDOWN, and every
token outside the fixed lookup table to NOSTATE. -/
theorem mapping_power_stat_total (tok : String) :
    mapping_power_stat "on" = RUNNING ∧
    mapping_power_stat "off" = SHUTDOWN ∧
    (tok ≠ "on" → tok ≠ "off" → mapping_power_stat tok = NOSTATE) := by
  refine ⟨rfl, rfl, fun h1 h2 => ?_⟩
  have e1 : (tok == "on") = false := by simp [h1]
  have e2 : (tok == "off") = false := by simp [h2]
  simp [mapping_power_stat, ZVM_POWER_STAT, List.lookup, e1, e2]

/-- Witness for C5 at the concrete token "paused-xyz". -/
theorem mapping_power_stat_total_witness :
    mapping_power_stat "paused-xyz" = NOSTATE :=
  (mapping_power_stat_total "paused-xyz").2.2 (by decide) (by decide)

/-- C3 counterexample: in the `nova_zvm` driver's `get_info`, with
previous effective state PAUSED and fresh raw token "on" (which
translates to RUNNING), the reported state is RUNNING, not PAUSED, so
the sticky-pause override does not hold for every status refresh. -/
theorem get_info_sticky_pause_counterexample :
    mapping_power_stat "on" = RUNNING ∧
    zvm_get_info_state ⟨"fake", PAUSED⟩ "on" = RUNNING ∧
    zvm_get_info_state ⟨"fake", PAUSED⟩ "on" ≠ PAUSED := by
  refine ⟨rfl, rfl, by decide⟩

/-- C3 (amended): the sticky-pause override holds for the legacy
driver's `_get_instance_info` — previous PAUSED plus raw RUNNING
reports PAUSED, any other combination reports the raw translated state
(in particular previous RUNNING and new RUNNING reports RUNNING) —
while the `nova_zvm` driver's `get_info` always reports the raw
translated state. -/
theorem get_instance_info_sticky_pause (inst : Instance) (tok : String) :
    ((mapping_power_stat tok = RUNNING ∧ inst.power_state = PAUSED) →
      get_instance_info_state inst tok = PAUSED) ∧
    (¬ (mapping_power_stat tok = RUNNING ∧ inst.power_state = PAUSED) →
      get_instance_info_state inst tok = mapping_power_stat tok) ∧
    zvm_get_info_state inst tok = mapping_power_stat tok := by
  refine ⟨fun h => ?_, fun h => ?_, rfl⟩
  · simp [get_instance_info_state, h.1, h.2]
  · simp only [get_instance_info_state]
    rw [if_neg h]

/-- Witness for C3 (amended): previous PAUSED with raw "on" reports
PAUSED in the legacy driver, and previous RUNNING with raw "on" reports
RUNNING. -/
theorem get_instance_info_sticky_pause_witness :
    get_instance_info_state ⟨"fake", PAUSED⟩ "on" = PAUSED ∧
    get_instance_info_state ⟨"fake", RUNNING⟩ "on" = RUNNING :=
  ⟨(get_instance_info_sticky_pause ⟨"fake", PAUSED⟩ "on").1 ⟨rfl, rfl⟩,
   (get_instance_info_sticky_pause ⟨"fake", RUNNING⟩ "on").2.1 (by decide)⟩

/-- C9: the reported `memory_mb_used` equals
`host_memory_total - host_memory_free` exactly, equals the payload's
`memory_mb_used` field exactly, and is negative (surfaced, not clamped)
exactly when the derived free memory exceeds the total. -/
theorem get_available_resource_memory_used (info : HostInfo) :
    (get_available_resource info).memory_mb_used =
      (update_host_status info).host_memory_total -
        (update_host_status info).host_memory_free ∧
    (get_available_resource info).memory_mb_used = info.memory_mb_used ∧
    ((update_host_status info).host_memory_free >
        (update_host_status info).host_memory_total →
      (get_available_resource info).memory_mb_used < 0) := by
  refine ⟨rfl, ?_, fun h => ?_⟩
  · simp [get_available_resource, update_host_status]
  · simp only [get_available_resource, update_host_status] at *
    omega

/-- Witness for C9 at a payload whose free memory exceeds its total
(`memory_mb_used = -5`): the negative value is surfaced. -/
theorem get_available_resource_memory_used_witness :
    (get_available_resource ⟨4, 1, 100, -5, 10, 2, 8⟩).memory_mb_used = -5 ∧
    (get_available_resource ⟨4, 1, 100, -5, 10, 2, 8⟩).memory_mb_used < 0 :=
  ⟨(get_available_resource_memory_used ⟨4, 1, 100, -5, 10, 2, 8⟩).2.1,
   (get_available_resource_memory_used ⟨4, 1, 100, -5, 10, 2, 8⟩).2.2 (by decide)⟩

end ZvmDriver

namespace ZvmDriver

/-! ## Claims about the readiness waiter -/

theorem checkKeys_fst_cases (env : TickEnv) (ks : List String) :
    (checkKeys env ks).1 = .done ∨ (checkKeys env ks).1 = .continuePolling := by
  induction ks with
  | nil => exact Or.inl rfl
  | cons k ks ih =>
    simp only [checkKeys]
    cases hq : env.defInfo k with
    | error e => simp [ZVMSDKRequestFailed.isZVMBaseException]
    | ok c =>
      cases c
      · exact Or.inr rfl
      · simpa using ih

theorem checkKeys_done_iff (env : TickEnv) (ks : List String) :
    (checkKeys env ks).1 = .done ↔ ∀ k ∈ ks, env.defInfo k = .ok true := by
  induction ks with
  | nil => simp [checkKeys]
  | cons k ks ih =>
    simp only [checkKeys]
    cases hq : env.defInfo k with
    | error e =>
      constructor
      · intro h
        simp [ZVMSDKRequestFailed.isZVMBaseException] at h
      · intro hall
        have := hall k (List.mem_cons_self k ks)
        rw [hq] at this
        exact absurd this (by simp)
    | ok c =>
      cases c
      · constructor
        · intro h; exact absurd h (by simp)
        · intro hall
          have := hall k (List.mem_cons_self k ks)
          rw [hq] at this
          exact absurd this (by simp)
      · simp only [if_pos rfl]
        rw [List.forall_mem_cons]
        constructor
        · intro h
          exact ⟨hq, ih.mp (by simpa using h)⟩
        · intro h
          simpa using ih.mpr h.2

theorem checkKeys_error_of_mem (env : TickEnv) (ks : List String) (k : String)
    (hk : k ∈ ks) (e : ZVMSDKRequestFailed) (he : env.defInfo k = .error e) :
    (checkKeys env ks).1 = .continuePolling := by
  induction ks with
  | nil => cases hk
  | cons q ks ih =>
    simp only [checkKeys]
    cases hq : env.defInfo q with
    | error f => simp [ZVMSDKRequestFailed.isZVMBaseException]
    | ok c =>
      cases c
      · simp
      · rcases List.mem_cons.mp hk with h | h
        · subst h; rw [hq] at he; cases he
        · simpa using ih h

/-- C1: on a tick where the deadline check does not fire, the readiness
waiter terminates successfully (raises `LoopingCallDone`) exactly when
the vswitch mapping is non-empty, contains no empty-string (unresolved)
value, and every mapped NIC's `guest_get_definition_info` query reports
`nic_coupled` true; on any tick where that condition fails the callback
returns normally, so the loop keeps polling. -/
theorem wait_tick_done_iff_converged (env : TickEnv)
    (h : ¬ (env.zvm_reachable_timeout ≠ 0 ∧ env.now > env.expiration)) :
    ((wait_for_nics_add_in_vm env).1 = .done ↔ convergedNow env) ∧
    (¬ convergedNow env →
      (wait_for_nics_add_in_vm env).1 = .continuePolling) := by
  simp only [wait_for_nics_add_in_vm, if_neg h]
  cases hv : env.vswitch with
  | error e =>
    constructor
    · constructor
      · intro hcontra
        simp [ZVMSDKRequestFailed.isZVMBaseException] at hcontra
      · rintro ⟨sd, hsd, -⟩
        rw [hv] at hsd
        cases hsd
    · intro _
      simp [ZVMSDKRequestFailed.isZVMBaseException]
  | ok sd =>
    by_cases hc : sd ≠ [] ∧ ¬ (sd.map Prod.snd).contains ""
    · simp only [if_pos hc]
      constructor
      · constructor
        · intro hd
          exact ⟨sd, hv, hc.1, hc.2,
            (checkKeys_done_iff env (sd.map Prod.fst)).mp (by simpa using hd)⟩
        · rintro ⟨sd', hsd', -, -, hall⟩
          rw [hv] at hsd'
          cases hsd'
          simpa using (checkKeys_done_iff env (sd.map Prod.fst)).mpr hall
      · intro hnc
        have hnd : ¬ ∀ k ∈ sd.map Prod.fst, env.defInfo k = .ok true := by
          intro hall
          exact hnc ⟨sd, hv, hc.1, hc.2, hall⟩
        rcases checkKeys_fst_cases env (sd.map Prod.fst) with hk | hk
        · exact absurd ((checkKeys_done_iff env (sd.map Prod.fst)).mp hk) hnd
        · simpa using hk
    · simp only [if_neg hc]
      constructor
      · constructor
        · intro hcontra
          exact absurd hcontra (by simp)
        · rintro ⟨sd', hsd', hne, hns, -⟩
          rw [hv] at hsd'
          cases hsd'
          exact (hc ⟨hne, hns⟩).elim
      · intro _
        trivial

/-- Witness for C1: `readyEnv` (one resolved, coupled NIC before the
deadline) terminates successfully, while `pendingEnv` (the NIC mapped
but not yet coupled) keeps polling. -/
theorem wait_tick_done_iff_converged_witness :
    (wait_for_nics_add_in_vm readyEnv).1 = .done ∧
    (wait_for_nics_add_in_vm pendingEnv).1 = .continuePolling := by
  constructor
  · exact (wait_tick_done_iff_converged readyEnv (by decide)).1.mpr
      ⟨[("1000", "XCATVSW2")], rfl, by decide, by decide, fun k _ => rfl⟩
  · refine (wait_tick_done_iff_converged pendingEnv (by decide)).2 ?_
    rintro ⟨sd, hsd, -, -, hall⟩
    have hsd' : sd = [("1000", "XCATVSW2")] := by
      simp only [pendingEnv, readyEnv] at hsd
      exact (Except.ok.inj hsd).symm
    subst hsd'
    have := hall "1000" (by simp)
    simp [pendingEnv, readyEnv] at this

/-- C2: a tick raises the timeout error (`ZVMNetworkError`) if and only
if `CONF.zvm_reachable_timeout` is non-zero and the current time is
past the deadline; in that case the tick issues no gateway call (the
check runs before the poll, even on a tick whose poll would converge),
and with the timeout configured to zero it never raises. -/
theorem wait_tick_timeout_iff (env : TickEnv) :
    ((wait_for_nics_add_in_vm env).1 = .timeoutError ↔
      env.zvm_reachable_timeout ≠ 0 ∧ env.now > env.expiration) ∧
    (env.zvm_reachable_timeout ≠ 0 ∧ env.now > env.expiration →
      (wait_for_nics_add_in_vm env).2 = []) := by
  by_cases h : env.zvm_reachable_timeout ≠ 0 ∧ env.now > env.expiration
  · simp [wait_for_nics_add_in_vm, h]
  · refine ⟨?_, fun hh => absurd hh h⟩
    simp only [wait_for_nics_add_in_vm, if_neg h]
    cases hv : env.vswitch with
    | error e =>
      simp [ZVMSDKRequestFailed.isZVMBaseException, h]
    | ok sd =>
      by_cases hc : sd ≠ [] ∧ ¬ (sd.map Prod.snd).contains ""
      · simp only [if_pos hc]
        rcases checkKeys_fst_cases env (sd.map Prod.fst) with hk | hk <;>
          simp [hk, h]
      · simp [if_neg hc, h]

/-- Witness for C2 at `timedOutEnv`: past the deadline on a tick whose
poll would have converged, the timeout error is raised and no gateway
call is issued. -/
theorem wait_tick_timeout_iff_witness :
    (wait_for_nics_add_in_vm timedOutEnv).1 = .timeoutError ∧
    (wait_for_nics_add_in_vm timedOutEnv).2 = [] :=
  ⟨(wait_tick_timeout_iff timedOutEnv).1.mpr ⟨by decide, by decide⟩,
   (wait_tick_timeout_iff timedOutEnv).2 ⟨by decide, by decide⟩⟩

/-- C6: on a pre-deadline tick, a gateway error
(`ZVMSDKRequestFailed`, a `ZVMBaseException`) raised by the
vswitch-info query or by a mapped NIC's definition-info query is
caught and swallowed: the tick returns normally and the loop stays in
the polling state. -/
theorem wait_tick_swallows_gateway_errors (env : TickEnv)
    (h : ¬ (env.zvm_reachable_timeout ≠ 0 ∧ env.now > env.expiration)) :
    ((∃ e, env.vswitch = .error e) →
      (wait_for_nics_add_in_vm env).1 = .continuePolling) ∧
    (∀ sd k e, env.vswitch = .ok sd → k ∈ sd.map Prod.fst →
      env.defInfo k = .error e →
      (wait_for_nics_add_in_vm env).1 = .continuePolling) := by
  simp only [wait_for_nics_add_in_vm, if_neg h]
  constructor
  · rintro ⟨e, hv⟩
    rw [hv]
    simp [ZVMSDKRequestFailed.isZVMBaseException]
  · intro sd k e hv hk he
    rw [hv]
    by_cases hc : sd ≠ [] ∧ ¬ (sd.map Prod.snd).contains ""
    · simp only [if_pos hc]
      simpa using checkKeys_error_of_mem env (sd.map Prod.fst) k hk e he
    · simp only [if_neg hc]

/-- Witness for C6: a failing vswitch query (`errEnv`) and a failing
definition-info query (`errKeyEnv`) each leave the loop polling. -/
theorem wait_tick_swallows_gateway_errors_witness :
    (wait_for_nics_add_in_vm errEnv).1 = .continuePolling ∧
    (wait_for_nics_add_in_vm errKeyEnv).1 = .continuePolling := by
  constructor
  · exact (wait_tick_swallows_gateway_errors errEnv (by decide)).1 ⟨⟨8⟩, rfl⟩
  · exact (wait_tick_swallows_gateway_errors errKeyEnv (by decide)).2
      [("1000", "XCATVSW2")] "1000" ⟨8⟩ rfl (by simp) rfl

end ZvmDriver

namespace ZvmDriver

/-! ## Claims about spawn and the guarded lifecycle operations -/

theorem destroyRun_trace_cases (gs : List String) (n : String) (l d : Bool) :
    (destroyRun gs n l d).1 = [GwOp.guest_list] ∨
    (destroyRun gs n l d).1 = [GwOp.guest_list, GwOp.guest_delete] := by
  unfold destroyRun
  (repeat' split) <;> first | exact Or.inl rfl | exact Or.inr rfl

theorem spawnAfterCreate_head (env : SpawnEnv) :
    (spawnAfterCreate env).1 =
      GwOp.guest_create :: (spawnAfterCreate env).1.tail := by
  unfold spawnAfterCreate
  (repeat' split) <;> rfl

theorem image_import_not_mem_afterCreate (env : SpawnEnv) :
    GwOp.image_import ∉ (spawnAfterCreate env).1 := by
  unfold spawnAfterCreate
  (repeat' split) <;> decide

theorem guest_delete_not_mem_afterCreate (env : SpawnEnv) :
    GwOp.guest_delete ∉ (spawnAfterCreate env).1 := by
  unfold spawnAfterCreate
  (repeat' split) <;> decide

theorem guest_create_not_mem_preCreate (env : SpawnEnv) :
    GwOp.guest_create ∉ preCreateTrace env := by
  unfold preCreateTrace
  (repeat' split) <;> decide

theorem guest_delete_not_mem_preCreate (env : SpawnEnv) :
    GwOp.guest_delete ∉ preCreateTrace env := by
  unfold preCreateTrace
  (repeat' split) <;> decide

theorem count_image_import_preCreate (env : SpawnEnv) :
    (preCreateTrace env).count GwOp.image_import =
      if env.imagePresent then 0 else 1 := by
  unfold preCreateTrace
  (repeat' split) <;> decide

theorem guest_delete_not_mem_spawnForward (env : SpawnEnv) :
    GwOp.guest_delete ∉ (spawnForward env).1 := by
  unfold spawnForward
  (repeat' split) <;>
    first
    | decide
    | exact guest_delete_not_mem_preCreate env
    | (intro h
       rcases List.mem_append.mp h with h | h
       · exact guest_delete_not_mem_preCreate env h
       · exact guest_delete_not_mem_afterCreate env h)

theorem spawnForward_shape (env : SpawnEnv) :
    GwOp.guest_create ∉ (spawnForward env).1 ∨
    (spawnForward env).1 = preCreateTrace env ++ (spawnAfterCreate env).1 := by
  unfold spawnForward
  (repeat' split) <;>
    first
    | exact Or.inl (by decide)
    | exact Or.inl (guest_create_not_mem_preCreate env)
    | exact Or.inr rfl

end ZvmDriver

namespace ZvmDriver

theorem spawn_trace_split (name : String) (env : SpawnEnv)
    (hn : ¬ name.length > 8) :
    (spawn name env).1 = (spawnForward env).1 ∨
    ∃ ctr, (spawn name env).1 = (spawnForward env).1 ++ ctr ∧
      GwOp.guest_create ∉ ctr ∧ GwOp.image_import ∉ ctr := by
  have hctr : (spawnCleanup name env).1 = [GwOp.guest_list] ∨
      (spawnCleanup name env).1 = [GwOp.guest_list, GwOp.guest_delete] :=
    destroyRun_trace_cases _ _ _ _
  simp only [spawn, if_neg hn]
  cases hoe : (spawnForward env).2.2 with
  | none => exact Or.inl rfl
  | some e =>
    refine Or.inr ⟨(spawnCleanup name env).1, rfl, ?_, ?_⟩ <;>
      (rcases hctr with h | h <;> (rw [h]; decide))

/-- C4 counterexample: `guest_deploy` fails after a successful
`guest_create`, and the compensating destroy's `guest_list` call also
fails; no `guest_delete` is issued, and the propagated error is the
cleanup error, not the original deploy error — so the claim as stated
does not hold for every exception after guest creation. -/
theorem spawn_rollback_counterexample :
    (spawnForward rollbackMaskedEnv).2.1 = true ∧
    (spawnForward rollbackMaskedEnv).2.2 = some .guestDeployErr ∧
    ¬ (((spawn "abc" rollbackMaskedEnv).1).count GwOp.guest_delete = 1 ∧
        (spawn "abc" rollbackMaskedEnv).2 = .error .guestDeployErr) :=
  ⟨rfl, rfl, fun hcl => absurd hcl.1 (by decide)⟩

/-- C4 (amended): for every exception raised after `guest_create`
succeeded, provided the compensating destroy's own `guest_list` and
`guest_delete` calls succeed, `spawn` issues exactly one `guest_delete`
for the guest and re-raises the original exception unchanged; when the
cleanup itself fails, `save_and_reraise_exception` instead lets the
cleanup error propagate (see the counterexample). -/
theorem spawn_rollback_after_create (name : String) (env : SpawnEnv)
    (e : SpawnErr) (hn : ¬ name.length > 8)
    (hcreated : (spawnForward env).2.1 = true)
    (herr : (spawnForward env).2.2 = some e)
    (hl : env.cleanupListOk = true)
    (hd : env.cleanupDeleteOk = true) :
    ((spawn name env).1).count GwOp.guest_delete = 1 ∧
    (spawn name env).2 = .error e := by
  have hnd := guest_delete_not_mem_spawnForward env
  have hcl : spawnCleanup name env
      = ([GwOp.guest_list, GwOp.guest_delete], none) := by
    unfold spawnCleanup guestsAfterForward
    rw [hcreated, hl, hd]
    simp [destroyRun]
  simp only [spawn, if_neg hn, herr, hcl]
  constructor
  · rw [List.count_append, List.count_eq_zero.mpr hnd]
    rfl
  · trivial

/-- Witness for C4 (amended): deploy fails after creation with a
healthy cleanup path; exactly one `guest_delete` and the original
deploy error. -/
theorem spawn_rollback_after_create_witness :
    ((spawn "abc" rollbackCleanEnv).1).count GwOp.guest_delete = 1 ∧
    (spawn "abc" rollbackCleanEnv).2 = .error .guestDeployErr :=
  spawn_rollback_after_create "abc" rollbackCleanEnv .guestDeployErr
    (by decide) rfl rfl rfl rfl

/-- C7: on every spawn run that reaches `guest_create`, if the first
`image_query` reported the image absent, the trace contains exactly one
`image_import`, and it is issued before `guest_create`; if the image
was present, no `image_import` is issued at all. -/
theorem spawn_image_import_once (name : String) (env : SpawnEnv)
    (hcr : GwOp.guest_create ∈ (spawn name env).1) :
    (env.imagePresent = false →
      ∃ pre post, (spawn name env).1 = pre ++ GwOp.guest_create :: post ∧
        pre.count GwOp.image_import = 1 ∧
        ((spawn name env).1).count GwOp.image_import = 1) ∧
    (env.imagePresent = true →
      ((spawn name env).1).count GwOp.image_import = 0) := by
  by_cases hn : name.length > 8
  · simp only [spawn, if_pos hn] at hcr
    simp at hcr
  · have hsplit := spawn_trace_split name env hn
    have hcf : GwOp.guest_create ∈ (spawnForward env).1 := by
      rcases hsplit with h | ⟨ctr, h, hnc, -⟩
      · rwa [h] at hcr
      · rw [h] at hcr
        rcases List.mem_append.mp hcr with h' | h'
        · exact h'
        · exact absurd h' hnc
    have heq := (spawnForward_shape env).resolve_left (fun hno => hno hcf)
    obtain ⟨rest, hA⟩ :
        ∃ rest, (spawnAfterCreate env).1 = GwOp.guest_create :: rest :=
      ⟨(spawnAfterCreate env).1.tail, spawnAfterCreate_head env⟩
    have himp := image_import_not_mem_afterCreate env
    have hcnt := count_image_import_preCreate env
    constructor
    · intro hp
      rw [hp] at hcnt
      simp at hcnt
      rcases hsplit with h | ⟨ctr, h, -, hni⟩
      · refine ⟨preCreateTrace env, rest, ?_, hcnt, ?_⟩
        · rw [h, heq, hA]
        · rw [h, heq, List.count_append, hcnt,
            List.count_eq_zero.mpr himp]
      · refine ⟨preCreateTrace env, rest ++ ctr, ?_, hcnt, ?_⟩
        · rw [h, heq, hA]
          simp [List.append_assoc]
        · rw [h, List.count_append, heq, List.count_append, hcnt,
            List.count_eq_zero.mpr himp, List.count_eq_zero.mpr hni]
    · intro hp
      rw [hp] at hcnt
      simp at hcnt
      rcases hsplit with h | ⟨ctr, h, -, hni⟩
      · rw [h, heq, List.count_append, hcnt,
          List.count_eq_zero.mpr himp]
      · rw [h, List.count_append, heq, List.count_append, hcnt,
          List.count_eq_zero.mpr himp, List.count_eq_zero.mpr hni]

/-- Witness for C7: a run that must import first (`importNeededEnv`)
issues exactly one `image_import`; a run whose image is present
(`importSkippedEnv`) issues none. -/
theorem spawn_image_import_once_witness :
    (GwOp.guest_create ∈ (spawn "abc" importNeededEnv).1 ∧
      ((spawn "abc" importNeededEnv).1).count GwOp.image_import = 1) ∧
    (GwOp.guest_create ∈ (spawn "abc" importSkippedEnv).1 ∧
      ((spawn "abc" importSkippedEnv).1).count GwOp.image_import = 0) := by
  constructor
  · refine ⟨by decide, ?_⟩
    obtain ⟨pre, post, -, -, htot⟩ :=
      (spawn_image_import_once "abc" importNeededEnv (by decide)).1 rfl
    exact htot
  · exact ⟨by decide,
      (spawn_image_import_once "abc" importSkippedEnv (by decide)).2 rfl⟩

/-- C8: a spawn whose instance name is longer than 8 characters raises
InvalidInput with an empty call trace: no gateway call is issued and no
rollback happens. -/
theorem spawn_long_name_rejected (name : String) (env : SpawnEnv)
    (h : name.length > 8) :
    spawn name env = ([], .error .invalidInput) := by
  simp only [spawn, if_pos h]

/-- Witness for C8 at the 9-character name "abcdefghi". -/
theorem spawn_long_name_rejected_witness :
    spawn "abcdefghi" importNeededEnv = ([], .error .invalidInput) :=
  spawn_long_name_rejected "abcdefghi" importNeededEnv (by decide)

/-- C10: with the gateway's `guest_list` reply in hand, each of
`destroy`, `power_off` and `power_on` skips its lifecycle call and
returns normally when the instance name is absent from the list, and
issues exactly one lifecycle call when it is present. -/
theorem lifecycle_ops_guarded (guests : List String) (name : String)
    (dOk stOk sOk : Bool) :
    (name ∉ guests →
      destroyRun guests name true dOk = ([GwOp.guest_list], none) ∧
      power_off_run guests name true stOk = ([GwOp.guest_list], none) ∧
      power_on_run guests name true sOk = ([GwOp.guest_list], none)) ∧
    (name ∈ guests →
      ((destroyRun guests name true dOk).1).count GwOp.guest_delete = 1 ∧
      ((power_off_run guests name true stOk).1).count GwOp.guest_stop = 1 ∧
      ((power_on_run guests name true sOk).1).count GwOp.guest_start = 1) := by
  constructor
  · intro h
    simp [destroyRun, power_off_run, power_on_run, h]
  · intro h
    cases dOk <;> cases stOk <;> cases sOk <;>
      simp [destroyRun, power_off_run, power_on_run, h, List.count_cons]

/-- Witness for C10: with guest list `["inst1"]`, the absent name
"inst2" yields a bare `guest_list` trace and a normal return for all
three operations; the present name "inst1" yields exactly one
lifecycle call each. -/
theorem lifecycle_ops_guarded_witness :
    (destroyRun ["inst1"] "inst2" true true = ([GwOp.guest_list], none) ∧
      power_off_run ["inst1"] "inst2" true true = ([GwOp.guest_list], none) ∧
      power_on_run ["inst1"] "inst2" true true = ([GwOp.guest_list], none)) ∧
    (((destroyRun ["inst1"] "inst1" true true).1).count GwOp.guest_delete = 1 ∧
      ((power_off_run ["inst1"] "inst1" true true).1).count GwOp.guest_stop = 1 ∧
      ((power_on_run ["inst1"] "inst1" true true).1).count GwOp.guest_start = 1) :=
  ⟨(lifecycle_ops_guarded ["inst1"] "inst2" true true true).1 (by decide),
   (lifecycle_ops_guarded ["inst1"] "inst1" true true true).2 (by decide)⟩

end ZvmDriver
